import Mathlib

/-!
# Verification of the MarketingDash rolling-CPA core

Shallow embedding of the computation core of the MarketingDash repository:

* `src/components/FacebookCSVUpload.tsx` — the rolling CPA engine
  (`calculateRollingCPA`, `calculateAdSetRollingCPA`), the integrity guard
  (`validateRealData`) and the change classifier (`getSignificantCPAChanges`);
* `src/utils/facebookCSVParser.ts` — the CSV normalizer
  (`processFacebookCSVData`) and the chart series builder
  (`convertToCPAChartData`);
* `src/utils/dataValidation.ts` — the advisory mock-data detector
  (`detectMockData`) and the standalone `calculateRollingCPA` helper.

Modelling conventions:

* JavaScript numbers are modelled as exact rationals (`ℚ`); the claims under
  study concern control flow and exact arithmetic identities, not floating
  point rounding.
* Calendar dates (ISO `YYYY-MM-DD` strings in the source) are modelled as
  integers counting days (`ℤ`).  String equality of two ISO dates coincides
  with equality of day numbers, and `new Date(a) <= new Date(b)` coincides
  with `a ≤ b`, so both comparison styles used by the source collapse to `ℤ`
  comparisons.  Adding/subtracting days (`setDate(getDate() - 6)`) is integer
  subtraction.
* JavaScript platform primitives that are not repository code are passed in
  as parameters where their exact behaviour matters: `parseFloat` is a
  parameter `pf : String → Option ℚ` (with `none` playing the role of `NaN`)
  and the `normalizeDate` / "yesterday" date machinery of the parser is a
  parameter `nd : String → ℤ` together with `yesterday : ℤ`.
* `Array.prototype.sort` with a numeric comparator is modelled by the stable
  `List.insertionSort` with the relation "the comparator is ≤ 0".
* JavaScript `a || b` on strings returns the first non-empty string;
  `jsOr` below.
-/

namespace MarketingDash

/-- Trend classification, source `FacebookCSVUpload.tsx` line 508:
`'improving' | 'worsening' | 'stable'`. -/
inductive Trend where
  | improving
  | worsening
  | stable
deriving DecidableEq, Repr

/-- Canonical per-ad-set daily record, source `FacebookCSVUpload.tsx`
lines 490–498 (`DailyMetrics`).  `platform` is kept as a `String` because the
integrity guard's `record.adSetId || record.adSetName` logic relies on
JavaScript string truthiness, modelled by emptiness tests. -/
structure DailyMetrics where
  date : ℤ
  platform : String
  adSetId : String
  adSetName : String
  spend : ℚ
  conversions : ℚ
  costPerConversion : ℚ
deriving DecidableEq, Repr

/-- Derived per-ad-set rolling result, source `FacebookCSVUpload.tsx`
lines 500–510 (`RollingCPAResult`). -/
structure RollingCPAResult where
  adSetId : String
  adSetName : String
  platform : String
  currentDayCPA : ℚ
  rolling7DayAvgCPA : ℚ
  changeFromRollingAvg : ℚ
  changePercent : ℚ
  trend : Trend
  dataPoints : ℕ
deriving DecidableEq, Repr

/-- JavaScript `a || b` for strings: the empty string is falsy. -/
def jsOr (a b : String) : String := if a = "" then b else a

/-- JavaScript `String.prototype.toLowerCase` (ASCII range, which is all the
source compares), as a character-level map. -/
def strLower (s : String) : String := String.mk (s.data.map Char.toLower)

/-- JavaScript `String.prototype.startsWith` / an anchored `^...` regex
match, as a character-level test of `p` against the front of `s`. -/
def strStartsWith (s p : String) : Bool := p.data.isPrefixOf s.data

/-- JavaScript `String.prototype.trim`: strip whitespace from both ends. -/
def strTrim (s : String) : String :=
  String.mk (((s.data.dropWhile Char.isWhitespace).reverse.dropWhile Char.isWhitespace).reverse)

/-- `spend % 100 === 0` in the source, i.e. the value is an exact integer
multiple of 100 (the `ℚ` value divided by 100 has denominator 1). -/
def isMult100 (q : ℚ) : Bool := (q / 100).den = 1

/-- The case-insensitive prefix test `/^(test|mock|fake|demo)_/i` from
`validateRealData` (line 729) and `detectMockData` (line 165). -/
def hasTestPrefix (s : String) : Bool :=
  let l := strLower s
  strStartsWith l "test_" || strStartsWith l "mock_" ||
    strStartsWith l "fake_" || strStartsWith l "demo_"

/-- Heuristic 1 of `validateRealData` (line 723): *every* record's spend is a
multiple of 100 greater than 100 (`data.every(...)`). -/
def roundSpendPattern (data : List DailyMetrics) : Bool :=
  data.all (fun r => isMult100 r.spend && decide (100 < r.spend))

/-- Heuristic 2 of `validateRealData` (line 726): more than one record and
every record carries the same `costPerConversion`
(`new Set(...).size === 1`). -/
def identicalCPAPattern (data : List DailyMetrics) : Bool :=
  decide (1 < data.length) &&
    (match data with
     | [] => true
     | x :: xs => xs.all (fun y => decide (y.costPerConversion = x.costPerConversion)))

/-- Heuristic 3 of `validateRealData` (line 729): some record's
`adSetId || adSetName` matches the test prefix regex.  Note the JavaScript
`||`: the ad set *name* is only consulted when the ad set *id* is empty. -/
def testPrefixPattern (data : List DailyMetrics) : Bool :=
  data.any (fun r => hasTestPrefix (jsOr r.adSetId r.adSetName))

/-- Heuristic 4 of `validateRealData` (line 732): some record has more
conversions than dollars spent. -/
def conversionsPattern (data : List DailyMetrics) : Bool :=
  data.any (fun r => decide (r.spend < r.conversions))

/-- The error message thrown at line 736. -/
def mockMsg : String :=
  "Mock or suspicious data detected. Only real advertising data is allowed."

/-- The error message thrown at line 742. -/
def formatMsg : String :=
  "Invalid data format detected. All records must have date, adSetId, spend, and conversions."

/-- The error message thrown at line 746. -/
def negMsg : String :=
  "Invalid data values. Spend and conversions cannot be negative."

/-- The per-record structural loop of `validateRealData` (lines 740–748).
The `!record.date` / `typeof` parts of the source test are vacuous in this
embedding (dates are always present integers, spends always numbers), so the
remaining observable tests are the empty `adSetId` and negativity checks. -/
def structuralError : List DailyMetrics → Option String
  | [] => none
  | r :: rest =>
    if r.adSetId = "" then some formatMsg
    else if r.spend < 0 ∨ r.conversions < 0 then some negMsg
    else structuralError rest

/-- `validateRealData` (`FacebookCSVUpload.tsx` lines 719–749).  Returns
`some msg` when the source throws `Error(msg)`, `none` when it returns
normally. -/
def validateRealData (data : List DailyMetrics) : Option String :=
  if roundSpendPattern data || identicalCPAPattern data ||
     testPrefixPattern data || conversionsPattern data then
    some mockMsg
  else structuralError data

/-- The trend classification of lines 610–618: `|changePercent| < 5` is
stable, otherwise positive is worsening and the rest improving. -/
def trendOf (changePercent : ℚ) : Trend :=
  if |changePercent| < 5 then .stable
  else if 0 < changePercent then .worsening
  else .improving

/-- The 7-calendar-day rolling window of lines 571–579: all records with
date in `[targetDate - 6, targetDate]` inclusive. -/
def rollingWindow (adSetData : List DailyMetrics) (targetDate : ℤ) : List DailyMetrics :=
  adSetData.filter (fun r => decide (targetDate - 6 ≤ r.date ∧ r.date ≤ targetDate))

/-- Lines 562–569: the record for the target date if present, otherwise the
first element (most recent, since the caller sorted descending by date).
`none` exactly when the list is empty, which is the source's
`adSetData.length === 0` early return. -/
def latestOf (adSetData : List DailyMetrics) (targetDate : ℤ) : Option DailyMetrics :=
  (adSetData.find? (fun r => decide (r.date = targetDate))).orElse (fun _ => adSetData.head?)

/-- `calculateAdSetRollingCPA` (`FacebookCSVUpload.tsx` lines 554–631). -/
def calculateAdSetRollingCPA (adSetData : List DailyMetrics) (targetDate : ℤ) :
    Option RollingCPAResult :=
  match latestOf adSetData targetDate with
  | none => none
  | some latestData =>
    let rollingData := rollingWindow adSetData targetDate
    if rollingData = [] then none
    else
      let totalSpend := (rollingData.map (·.spend)).sum
      let totalConversions := (rollingData.map (·.conversions)).sum
      if totalConversions = 0 then
        some { adSetId := latestData.adSetId
               adSetName := latestData.adSetName
               platform := latestData.platform
               currentDayCPA := latestData.costPerConversion
               rolling7DayAvgCPA := 0
               changeFromRollingAvg := latestData.costPerConversion
               changePercent := 100
               trend := .worsening
               dataPoints := rollingData.length }
      else
        let rolling7DayAvgCPA := totalSpend / totalConversions
        let changeFromRollingAvg := latestData.costPerConversion - rolling7DayAvgCPA
        let changePercent :=
          if 0 < rolling7DayAvgCPA then changeFromRollingAvg / rolling7DayAvgCPA * 100 else 0
        some { adSetId := latestData.adSetId
               adSetName := latestData.adSetName
               platform := latestData.platform
               currentDayCPA := latestData.costPerConversion
               rolling7DayAvgCPA := rolling7DayAvgCPA
               changeFromRollingAvg := changeFromRollingAvg
               changePercent := changePercent
               trend := trendOf changePercent
               dataPoints := rollingData.length }

/-- The comparator `(a, b) => new Date(b.date).getTime() - new Date(a.date).getTime()`
of line 539 sorts by date descending; element `a` may precede `b` when the
comparator is `≤ 0`, i.e. `b.date ≤ a.date`. -/
def dateDesc (a b : DailyMetrics) : Prop := b.date ≤ a.date

instance : DecidableRel dateDesc := fun a b => inferInstanceAs (Decidable (b.date ≤ a.date))

instance : IsTotal DailyMetrics dateDesc :=
  ⟨fun a b => le_total b.date a.date⟩

instance : IsTrans DailyMetrics dateDesc :=
  ⟨fun _ _ _ h1 h2 => le_trans h2 h1⟩

/-- The comparator `(a, b) => b.currentDayCPA - a.currentDayCPA` of line 548
sorts by current-day CPA descending. -/
def cpaDesc (a b : RollingCPAResult) : Prop := b.currentDayCPA ≤ a.currentDayCPA

instance : DecidableRel cpaDesc := fun a b =>
  inferInstanceAs (Decidable (b.currentDayCPA ≤ a.currentDayCPA))

instance : IsTotal RollingCPAResult cpaDesc :=
  ⟨fun a b => le_total b.currentDayCPA a.currentDayCPA⟩

instance : IsTrans RollingCPAResult cpaDesc :=
  ⟨fun _ _ _ h1 h2 => le_trans h2 h1⟩

/-- One step of the JavaScript `Set` iteration `[...new Set(xs)]`: append the
element unless it is already present.  The resulting list holds the distinct
elements in order of first occurrence. -/
def dedupStep {α : Type} [DecidableEq α] (acc : List α) (x : α) : List α :=
  if x ∈ acc then acc else acc ++ [x]

/-- `[...new Set(xs)]` — distinct elements in first-occurrence order. -/
def dedupFirst {α : Type} [DecidableEq α] (l : List α) : List α :=
  l.foldl dedupStep []

/-- All records of one ad set: `historicalData.filter(r => r.adSetId === adSetId)`
(line 534). -/
def adSetDataOf (data : List DailyMetrics) (id : String) : List DailyMetrics :=
  data.filter (fun r => decide (r.adSetId = id))

/-- The body of the `for (const adSetId of adSetIds)` loop of lines 533–545:
filter the ad set's records, skip an empty group, sort descending by date and
run the per-ad-set computation. -/
def perAdSet (data : List DailyMetrics) (targetDate : ℤ) (id : String) :
    Option RollingCPAResult :=
  let adSetData := adSetDataOf data id
  if adSetData = [] then none
  else calculateAdSetRollingCPA (adSetData.insertionSort dateDesc) targetDate

/-- `calculateRollingCPA` (`FacebookCSVUpload.tsx` lines 516–549), the batch
entry point: empty-input error, integrity guard, per-ad-set computation over
the distinct ad set ids, final sort by current-day CPA descending.  Thrown
errors are modelled by `Except.error`. -/
def calculateRollingCPA (historicalData : List DailyMetrics) (targetDate : ℤ) :
    Except String (List RollingCPAResult) :=
  if historicalData = [] then
    .error "Historical data is required for rolling CPA calculation"
  else
    match validateRealData historicalData with
    | some msg => .error msg
    | none =>
      let adSetIds := dedupFirst (historicalData.map (·.adSetId))
      let results := adSetIds.filterMap (perAdSet historicalData targetDate)
      .ok (results.insertionSort cpaDesc)

/-- Threshold configuration of `getSignificantCPAChanges` (lines 638–642). -/
structure CPAThresholds where
  critical : ℚ
  warning : ℚ
  improvement : ℚ
deriving DecidableEq, Repr

/-- The default thresholds: critical 25, warning 15, improvement -10. -/
def defaultCPAThresholds : CPAThresholds := ⟨25, 15, -10⟩

/-- Result buckets of `getSignificantCPAChanges` (lines 643–647). -/
structure SignificantChanges where
  critical : List RollingCPAResult
  warning : List RollingCPAResult
  improvements : List RollingCPAResult
deriving DecidableEq, Repr

/-- `getSignificantCPAChanges` (`FacebookCSVUpload.tsx` lines 636–661). -/
def getSignificantCPAChanges (rollingResults : List RollingCPAResult)
    (thresholds : CPAThresholds) : SignificantChanges :=
  { critical := rollingResults.filter (fun r => decide (thresholds.critical < r.changePercent))
    warning := rollingResults.filter (fun r =>
      decide (thresholds.warning < r.changePercent ∧ r.changePercent ≤ thresholds.critical))
    improvements := rollingResults.filter (fun r =>
      decide (r.changePercent < thresholds.improvement)) }

/-- `calculateRollingCPA` from `src/utils/dataValidation.ts` (lines 75–102),
the standalone helper.  NOTE: its window filter subtracts **7** days
(`sevenDaysAgo.setDate(sevenDaysAgo.getDate() - 7)`), so it keeps records
with date in `[currentDate - 7, currentDate]` — 8 calendar days — despite its
own "Get last 7 days of data" comment. -/
def DataValidation.calculateRollingCPA (historicalData : List DailyMetrics)
    (currentDate : ℤ) : Except String ℚ :=
  if historicalData = [] then
    .error "Historical data required for rolling CPA calculation"
  else
    let recentData := historicalData.filter (fun r =>
      decide (currentDate - 7 ≤ r.date ∧ r.date ≤ currentDate))
    if recentData = [] then
      .error "No data available for 7-day rolling calculation"
    else
      let totalSpend := (recentData.map (·.spend)).sum
      let totalConversions := (recentData.map (·.conversions)).sum
      if totalConversions = 0 then .ok 0
      else .ok (totalSpend / totalConversions)

/-- The shape of the records inspected by `detectMockData`
(`dataValidation.ts` lines 152–191): it probes `spend`, `id`,
`conversion_rate` and `conversions` properties.  An absent `id` is the empty
string (the source reads `record.id || ''`). -/
structure MockCheckRecord where
  spend : ℚ
  id : String
  conversion_rate : ℚ
  conversions : ℚ
deriving DecidableEq, Repr

/-- Message pushed at line 175. -/
def roundMsg : String := "Too many round number spends detected"

/-- Message pushed at line 179. -/
def testIdMsg : String := "Test/mock IDs detected in data"

/-- Message pushed at line 183. -/
def rateMsg : String := "Unrealistic conversion rates detected"

/-- Message pushed at line 187. -/
def identMsg : String := "Identical metrics across records (possible mock data)"

/-- `detectMockData` (`dataValidation.ts` lines 152–191).  Advisory: it
returns a list of matched pattern descriptions, it does not throw.  The
round-spend check here is the *more-than-half* fraction
(`.length > data.length * 0.5`), unlike `validateRealData`'s `every`.
The "identical metrics" check compares the template strings
`` `${spend}-${conversions}` ``, modelled as equality of the two numbers. -/
def detectMockData (data : List MockCheckRecord) : List String :=
  if data = [] then []
  else
    let p1 := decide
      (data.length < (data.filter (fun r => isMult100 r.spend && decide (100 < r.spend))).length * 2)
    let p2 := decide (0 < (data.filter (fun r => hasTestPrefix r.id)).length)
    let p3 := decide
      (2 < (data.filter (fun r => decide (r.conversion_rate = 5 ∨ r.conversion_rate = 10))).length)
    let p4 := decide (1 < data.length) &&
      (match data with
       | [] => true
       | x :: xs => xs.all (fun y => decide (y.spend = x.spend ∧ y.conversions = x.conversions)))
    (if p1 then [roundMsg] else []) ++ (if p2 then [testIdMsg] else []) ++
      (if p3 then [rateMsg] else []) ++ (if p4 then [identMsg] else [])

/-! ## Chart series builder (`facebookCSVParser.ts` lines 212–254) -/

/-- One step of building the `Map<string, {spend, conversions}>` of
lines 214–222: a JavaScript `Map` keeps keys in insertion order and
`set` on an existing key updates it in place, so the accumulator is an
association list updated at the first matching key and extended at the
end for a new key. -/
def upsertDate (acc : List (ℤ × ℚ × ℚ)) (m : DailyMetrics) : List (ℤ × ℚ × ℚ) :=
  match acc with
  | [] => [(m.date, m.spend, m.conversions)]
  | e :: rest =>
    if e.1 = m.date then (e.1, e.2.1 + m.spend, e.2.2 + m.conversions) :: rest
    else e :: upsertDate rest m

/-- The grouped daily totals, keyed by date in first-occurrence order. -/
def groupByDate (l : List DailyMetrics) : List (ℤ × ℚ × ℚ) :=
  l.foldl upsertDate []

/-- One element of the `sortedData` array of lines 225–232. -/
structure DatedTotals where
  date : ℤ
  spend : ℚ
  conversions : ℚ
  dailyCPA : ℚ
deriving DecidableEq, Repr

/-- The ascending-date comparator of line 232. -/
def dateAsc (a b : DatedTotals) : Prop := a.date ≤ b.date

instance : DecidableRel dateAsc := fun a b => inferInstanceAs (Decidable (a.date ≤ b.date))

instance : IsTotal DatedTotals dateAsc := ⟨fun a b => le_total a.date b.date⟩

instance : IsTrans DatedTotals dateAsc := ⟨fun _ _ _ h1 h2 => le_trans h1 h2⟩

/-- The entry-to-point mapping of lines 226–231: `dailyCPA` is
`spend / conversions` when conversions are positive, else 0. -/
def mkDatedTotals (e : ℤ × ℚ × ℚ) : DatedTotals :=
  { date := e.1, spend := e.2.1, conversions := e.2.2,
    dailyCPA := if 0 < e.2.2 then e.2.1 / e.2.2 else 0 }

/-- Lines 225–232: map the grouped entries to `{date, spend, conversions,
dailyCPA}` and sort ascending by date. -/
def sortedDailyData (l : List DailyMetrics) : List DatedTotals :=
  ((groupByDate l).map mkDatedTotals).insertionSort dateAsc

/-- One point of the output chart series (`CPAData` of `CPAAreaChart`). -/
structure CPAData where
  date : ℤ
  dailyCPA : ℚ
  rolling7DayAvg : ℚ
  spend : ℚ
  conversions : ℚ
deriving DecidableEq, Repr

/-- Lines 236–242: the rolling average at `index` over
`sortedData.slice(max(0, index - 6), index + 1)` — `List.drop` then
`List.take` with truncated `ℕ` subtraction playing the role of `max 0`. -/
def rollingAt (sortedData : List DatedTotals) (index : ℕ) : ℚ :=
  let window := (sortedData.drop (index - 6)).take (index + 1 - (index - 6))
  let windowSpend := (window.map (·.spend)).sum
  let windowConversions := (window.map (·.conversions)).sum
  if 0 < windowConversions then windowSpend / windowConversions else 0

/-- JavaScript `Array.prototype.map((item, index) => ...)`, with an explicit
starting index so that proofs can recurse. -/
def mapWithIndex {α β : Type} (f : ℕ → α → β) : ℕ → List α → List β
  | _, [] => []
  | i, x :: xs => f i x :: mapWithIndex f (i + 1) xs

/-- The per-point construction of lines 235–251: copy the point's fields and
attach the rolling average for its index. -/
def mkCPAData (sortedData : List DatedTotals) (index : ℕ) (item : DatedTotals) : CPAData :=
  { date := item.date, dailyCPA := item.dailyCPA,
    rolling7DayAvg := rollingAt sortedData index,
    spend := item.spend, conversions := item.conversions }

/-- `convertToCPAChartData` (`facebookCSVParser.ts` lines 212–254). -/
def convertToCPAChartData (dailyMetrics : List DailyMetrics) : List CPAData :=
  let sortedData := sortedDailyData dailyMetrics
  mapWithIndex (mkCPAData sortedData) 0 sortedData

/-- The total spend of the input records carrying a given date (the claim's
"grouping records by date, summing spend per date"). -/
def dateSpendSum (l : List DailyMetrics) (d : ℤ) : ℚ :=
  ((l.filter (fun m => decide (m.date = d))).map (·.spend)).sum

/-- The total conversions of the input records carrying a given date. -/
def dateConvSum (l : List DailyMetrics) (d : ℤ) : ℚ :=
  ((l.filter (fun m => decide (m.date = d))).map (·.conversions)).sum

/-- The spend total held by the grouped accumulator for a given date key. -/
def keySpendSum (g : List (ℤ × ℚ × ℚ)) (d : ℤ) : ℚ :=
  ((g.filter (fun e => decide (e.1 = d))).map (fun e => e.2.1)).sum

/-- The conversion total held by the grouped accumulator for a given date
key. -/
def keyConvSum (g : List (ℤ × ℚ × ℚ)) (d : ℤ) : ℚ :=
  ((g.filter (fun e => decide (e.1 = d))).map (fun e => e.2.2)).sum

/-! ## CSV normalizer (`facebookCSVParser.ts` lines 94–207)

`processFacebookCSVData` receives rows already split into key/value records
by PapaParse.  A row is modelled by the fields the function reads; a missing
column and an empty cell are both the empty string (both are falsy under the
source's `row[...] || fallback` reads, and `''.replace(...)`/`parseFloat('')`
behave identically on both).  `parseFloat` (with `NaN` as `none`), the
`normalizeDate` date parser (which rests on the JavaScript `Date` built-in)
and the "yesterday" fallback date are parameters. -/

/-- The columns read by `processFacebookCSVData` (lines 106–119). -/
structure FBRow where
  adSetNameA : String      -- 'Ad set name'
  adSetNameB : String      -- 'Ad Set Name'
  amountSpentAUD : String  -- 'Amount spent (AUD)'
  amountSpentB : String    -- 'Amount Spent'
  results : String         -- 'Results'
  costPerResultsA : String -- 'Cost per results'
  costPerResultB : String  -- 'Cost per Result'
  reportingStartsA : String -- 'Reporting starts'
  reportingStartsB : String -- 'Reporting Starts'
  reportingEndsA : String  -- 'Reporting ends'
  reportingEndsB : String  -- 'Reporting Ends'
  adSetDelivery : String   -- 'Ad set delivery'
deriving DecidableEq, Repr

/-- `.replace(/[$,]/g, '')` — strip dollar signs and commas (line 125). -/
def stripCur (s : String) : String :=
  String.mk (s.data.filter (fun c => !(c = '$' || c = ',')))

/-- `String(index).padStart(3, '0')`. -/
def pad3 (s : String) : String :=
  if s.length < 3 then String.mk (List.replicate (3 - s.length) '0') ++ s else s

/-- `generateAdSetId` (`facebookCSVParser.ts` lines 296–304): lowercase the
name, replace every character outside `[a-z0-9]` by `_`, keep the first 20
characters, and append the zero-padded row index. -/
def generateAdSetId (adSetName : String) (index : ℕ) : String :=
  let hash := String.mk
    (((strLower adSetName).data.map (fun c => if c.isLower || c.isDigit then c else '_')).take 20)
  "fb_" ++ hash ++ "_" ++ pad3 (toString index)

/-- Processing of a single CSV row (the body of the `for` loop, lines
101–185): returns the error messages pushed for this row and the
`DailyMetrics` record pushed, if any.  `i` is the 0-based row index (error
messages use `i + 2`, accounting for the header line). -/
def rowStep (pf : String → Option ℚ) (nd : String → ℤ) (yesterday : ℤ)
    (i : ℕ) (row : FBRow) : List String × Option DailyMetrics :=
  let adSetName := jsOr row.adSetNameA row.adSetNameB
  let amountSpent := jsOr row.amountSpentAUD row.amountSpentB
  let results := jsOr row.results "0"
  let costPerResult := jsOr row.costPerResultsA row.costPerResultB
  let reportingStart := jsOr row.reportingStartsA row.reportingStartsB
  let reportingEnd := jsOr row.reportingEndsA row.reportingEndsB
  if adSetName = "" ∨ strTrim adSetName = "" then ([], none)
  else if row.adSetDelivery = "inactive" ∨ row.adSetDelivery = "not_delivering" then ([], none)
  else
    match pf (stripCur amountSpent) with
    | none => (["Row " ++ toString (i + 2) ++ ": Invalid spend amount"], none)
    | some spend =>
      if spend < 0 then (["Row " ++ toString (i + 2) ++ ": Invalid spend amount"], none)
      else
        match pf results with
        | none => (["Row " ++ toString (i + 2) ++ ": Invalid results count"], none)
        | some conversions =>
          if conversions < 0 then
            (["Row " ++ toString (i + 2) ++ ": Invalid results count"], none)
          else if spend = 0 then ([], none)
          else
            let calculatedCPA := if 0 < conversions then spend / conversions else 0
            let cpaErrs :=
              match pf (stripCur costPerResult) with
              | some v =>
                if |calculatedCPA - v| > 1 / 100 ∧ 0 < conversions then
                  ["Row " ++ toString (i + 2) ++ ": CPA calculation mismatch"]
                else []
              | none => []
            let dateAndErr : ℤ × List String :=
              if reportingStart ≠ "" then (nd reportingStart, [])
              else if reportingEnd ≠ "" then (nd reportingEnd, [])
              else (yesterday, ["Row " ++ toString (i + 2) ++ ": No date found, using yesterday"])
            (cpaErrs ++ dateAndErr.2,
             some { date := dateAndErr.1
                    platform := "facebook"
                    adSetId := generateAdSetId adSetName i
                    adSetName := strTrim adSetName
                    spend := spend
                    conversions := conversions
                    costPerConversion := if 0 < conversions then spend / conversions else 0 })

/-- The summary block of lines 187–206.  `dateStart`/`dateEnd` are `none`
where the source uses `uniqueDates[...] || ''`. -/
structure FBSummary where
  totalRows : ℕ
  validRows : ℕ
  totalSpend : ℚ
  totalConversions : ℚ
  averageCPA : ℚ
  dateStart : Option ℤ
  dateEnd : Option ℤ
deriving DecidableEq, Repr

/-- The result shape of `processFacebookCSVData` (lines 23–38). -/
structure ParsedFacebookData where
  success : Bool
  data : List DailyMetrics
  errors : List String
  summary : FBSummary
deriving DecidableEq, Repr

/-- `processFacebookCSVData` (`facebookCSVParser.ts` lines 94–207).  The
source accumulates `totalSpend`, `totalConversions` and `dates` with the
very same values it pushes into `data`, so the accumulators are computed
here from `data` directly. -/
def processFacebookCSVData (pf : String → Option ℚ) (nd : String → ℤ)
    (yesterday : ℤ) (rows : List FBRow) : ParsedFacebookData :=
  let outs := mapWithIndex (rowStep pf nd yesterday) 0 rows
  let data := (outs.map Prod.snd).filterMap id
  let errors := (outs.map Prod.fst).flatten
  let totalSpend := (data.map (·.spend)).sum
  let totalConversions := (data.map (·.conversions)).sum
  let uniqueDates := (dedupFirst (data.map (·.date))).insertionSort (· ≤ ·)
  { success := decide (0 < data.length)
    data := data
    errors := errors
    summary := { totalRows := rows.length
                 validRows := data.length
                 totalSpend := totalSpend
                 totalConversions := totalConversions
                 averageCPA := if 0 < totalConversions then totalSpend / totalConversions else 0
                 dateStart := uniqueDates.head?
                 dateEnd := uniqueDates.getLast? } }

/-- A row with the source-supplied cost-per-result columns blanked out,
used to state that the stored output never depends on them. -/
def eraseCostPerResult (row : FBRow) : FBRow :=
  { row with costPerResultsA := "", costPerResultB := "" }

/-! ## Concrete instances used as witnesses and counterexamples -/

/-- One record, zero conversions, inside the window of target date 0. -/
def c1data : List DailyMetrics := [⟨0, "facebook", "a", "A", 10, 0, 0⟩]

/-- One record with positive conversions at the target date. -/
def c2data : List DailyMetrics := [⟨0, "facebook", "a", "A", 30, 1, 30⟩]

/-- The rolling result produced for `c2data` at target date 0. -/
def c2result : RollingCPAResult := ⟨"a", "A", "facebook", 30, 30, 0, 0, .stable, 1⟩

/-- A record dated exactly 7 days before the target date 10: outside the
7-calendar-day window `[4, 10]`, but inside `dataValidation.ts`'s
`[3, 10]` filter. -/
def c3record : DailyMetrics := ⟨3, "facebook", "a", "A", 70, 7, 10⟩

/-- A single record inside the window of target date 0, used to instantiate
the window/`dataPoints` statement. -/
def c3data : List DailyMetrics := [⟨0, "facebook", "a", "A", 70, 7, 10⟩]

/-- Three ad sets, all with data at the target date 10; `alpha` and `beta`
tie at current-day CPA 100, `gamma` is at 50.  Two of the three spends (200
and 300) are round multiples of 100 above 100, so *more than half* of the
records are "round" while not *all* of them are. -/
def c6data : List DailyMetrics :=
  [⟨10, "facebook", "alpha", "Alpha", 200, 2, 100⟩,
   ⟨10, "facebook", "beta", "Beta", 300, 3, 100⟩,
   ⟨10, "facebook", "gamma", "Gamma", 50, 1, 50⟩]

/-- A record whose ad-set *name* has the `test_` prefix while its ad-set
*id* is the non-empty string `"a1"`. -/
def c7record : DailyMetrics := ⟨10, "facebook", "a1", "test_camp", 50, 2, 25⟩

/-- A record whose ad-set *id* has the `test_` prefix. -/
def c7record2 : DailyMetrics := ⟨10, "facebook", "test_1", "Camp", 50, 2, 25⟩

/-- One record with spend 0 and positive conversions at the target date. -/
def c10data : List DailyMetrics := [⟨0, "facebook", "a", "A", 0, 5, 0⟩]

/-- Two one-ad-set records on consecutive dates (the E2E scenario rows),
listed date-descending so that grouping and sorting do real work. -/
def c9data : List DailyMetrics :=
  [⟨2, "facebook", "fb_adseta_001", "AdSetA", 600, 12, 50⟩,
   ⟨1, "facebook", "fb_adseta_000", "AdSetA", 500, 10, 50⟩]

/-- Rolling results with change percents 30, -15 and 2, for the classifier
scenario. -/
def c8critical : RollingCPAResult := ⟨"a", "A", "facebook", 10, 5, 5, 30, .worsening, 7⟩

/-- See `c8critical`. -/
def c8improving : RollingCPAResult := ⟨"b", "B", "facebook", 10, 12, -2, -15, .improving, 7⟩

/-- See `c8critical`. -/
def c8normal : RollingCPAResult := ⟨"c", "C", "facebook", 10, 10, 0, 2, .stable, 7⟩

/-- The rolling results the batch computation produces for `c6data` at
target date 10: `alpha` and `beta` tie at 100, `gamma` trails at 50. -/
def c4results : List RollingCPAResult :=
  [⟨"alpha", "Alpha", "facebook", 100, 100, 0, 0, .stable, 1⟩,
   ⟨"beta", "Beta", "facebook", 100, 100, 0, 0, .stable, 1⟩,
   ⟨"gamma", "Gamma", "facebook", 50, 50, 0, 0, .stable, 1⟩]

/-- A tiny `parseFloat` instantiation for concrete parser runs: it parses
exactly the strings `"500"` and `"10"`. -/
def c5pf : String → Option ℚ := fun s =>
  if s = "500" then some 500 else if s = "10" then some 10 else none

/-- A trivial date-normalizer instantiation: every date string parses to
day 0 (unused by `c5row`, which carries no dates). -/
def c5nd : String → ℤ := fun _ => 0

/-- A CSV row with ad set name `Camp`, spend `500`, results `10`, no dates
and no source-supplied cost per result. -/
def c5row : FBRow := ⟨"Camp", "", "500", "", "10", "", "", "", "", "", "", ""⟩

/-- The metric produced for `c5row` (with "yesterday" = day 99). -/
def c5metric : DailyMetrics := ⟨99, "facebook", "fb_camp_000", "Camp", 500, 10, 50⟩

/-!  ## Helper lemmas -/

theorem rowStep_snd_cpc {pf : String → Option ℚ} {nd : String → ℤ} {y : ℤ}
    {i : ℕ} {row : FBRow} {m : DailyMetrics}
    (h : (rowStep pf nd y i row).2 = some m) :
    m.costPerConversion = (if 0 < m.conversions then m.spend / m.conversions else 0) := by
  unfold rowStep at h
  by_cases h1 : jsOr row.adSetNameA row.adSetNameB = "" ∨
      strTrim (jsOr row.adSetNameA row.adSetNameB) = ""
  · rw [if_pos h1] at h; simp at h
  · rw [if_neg h1] at h
    by_cases h2 : row.adSetDelivery = "inactive" ∨ row.adSetDelivery = "not_delivering"
    · rw [if_pos h2] at h; simp at h
    · rw [if_neg h2] at h
      cases hp : pf (stripCur (jsOr row.amountSpentAUD row.amountSpentB)) with
      | none => rw [hp] at h; simp at h
      | some spend =>
        rw [hp] at h
        simp only at h
        by_cases h3 : spend < 0
        · rw [if_pos h3] at h; simp at h
        · rw [if_neg h3] at h
          cases hq : pf (jsOr row.results "0") with
          | none => rw [hq] at h; simp at h
          | some conversions =>
            rw [hq] at h
            simp only at h
            by_cases h4 : conversions < 0
            · rw [if_pos h4] at h; simp at h
            · rw [if_neg h4] at h
              by_cases h5 : spend = 0
              · rw [if_pos h5] at h; simp at h
              · rw [if_neg h5] at h
                simp only [Option.some.injEq] at h
                subst h
                rfl

theorem rowStep_snd_erase (pf : String → Option ℚ) (nd : String → ℤ) (y : ℤ)
    (i : ℕ) (row : FBRow) :
    (rowStep pf nd y i (eraseCostPerResult row)).2 = (rowStep pf nd y i row).2 := by
  obtain ⟨f1, f2, f3, f4, f5, f6, f7, f8, f9, f10, f11, f12⟩ := row
  show (rowStep pf nd y i ⟨f1, f2, f3, f4, f5, "", "", f8, f9, f10, f11, f12⟩).2 =
    (rowStep pf nd y i ⟨f1, f2, f3, f4, f5, f6, f7, f8, f9, f10, f11, f12⟩).2
  unfold rowStep
  by_cases h1 : jsOr f1 f2 = "" ∨ strTrim (jsOr f1 f2) = ""
  · rw [if_pos h1, if_pos h1]
  · rw [if_neg h1, if_neg h1]
    by_cases h2 : (⟨f1, f2, f3, f4, f5, f6, f7, f8, f9, f10, f11, f12⟩ : FBRow).adSetDelivery
        = "inactive" ∨
        (⟨f1, f2, f3, f4, f5, f6, f7, f8, f9, f10, f11, f12⟩ : FBRow).adSetDelivery
        = "not_delivering"
    · rw [if_pos h2, if_pos h2]
    · rw [if_neg h2, if_neg h2]
      cases hp : pf (stripCur (jsOr f3 f4)) with
      | none => rfl
      | some spend =>
        simp only
        by_cases h3 : spend < 0
        · rw [if_pos h3, if_pos h3]
        · rw [if_neg h3, if_neg h3]
          cases hq : pf (jsOr f5 "0") with
          | none => rfl
          | some conversions =>
            simp only
            by_cases h4 : conversions < 0
            · rw [if_pos h4, if_pos h4]
            · rw [if_neg h4, if_neg h4]
              by_cases h5 : spend = 0
              · rw [if_pos h5, if_pos h5]
              · rw [if_neg h5, if_neg h5]

theorem processFacebookCSVData_data (pf : String → Option ℚ) (nd : String → ℤ)
    (y : ℤ) (rows : List FBRow) :
    (processFacebookCSVData pf nd y rows).data =
      ((mapWithIndex (rowStep pf nd y) 0 rows).map Prod.snd).filterMap id := rfl

theorem mem_mapWithIndex_snd {pf : String → Option ℚ} {nd : String → ℤ} {y : ℤ} :
    ∀ (n : ℕ) (rows : List FBRow) (m : DailyMetrics),
      m ∈ ((mapWithIndex (rowStep pf nd y) n rows).map Prod.snd).filterMap id →
      ∃ i row, (rowStep pf nd y i row).2 = some m := by
  intro n rows
  induction rows generalizing n with
  | nil => intro m h; simp [mapWithIndex] at h
  | cons row rest ih =>
    intro m h
    rw [mapWithIndex, List.map_cons] at h
    cases hs : (rowStep pf nd y n row).2 with
    | none =>
      rw [hs] at h
      simp only [List.filterMap_cons, id] at h
      exact ih (n + 1) m h
    | some m2 =>
      rw [hs] at h
      simp only [List.filterMap_cons, id] at h
      rcases List.mem_cons.mp h with rfl | h2
      · exact ⟨n, row, hs⟩
      · exact ih (n + 1) m h2

theorem mapWithIndex_snd_erase (pf : String → Option ℚ) (nd : String → ℤ) (y : ℤ) :
    ∀ (n : ℕ) (rows : List FBRow),
      (mapWithIndex (rowStep pf nd y) n (rows.map eraseCostPerResult)).map Prod.snd =
        (mapWithIndex (rowStep pf nd y) n rows).map Prod.snd := by
  intro n rows
  induction rows generalizing n with
  | nil => rfl
  | cons row rest ih =>
    rw [List.map_cons, mapWithIndex, mapWithIndex, List.map_cons, List.map_cons,
      rowStep_snd_erase, ih]

theorem foldl_dedupStep_mem {α : Type} [DecidableEq α] (l acc : List α) (x : α) :
    x ∈ l.foldl dedupStep acc ↔ x ∈ acc ∨ x ∈ l := by
  induction l generalizing acc with
  | nil => simp
  | cons a l ih =>
    rw [List.foldl_cons, ih]
    by_cases h : a ∈ acc
    · rw [show dedupStep acc a = acc from if_pos h]
      constructor
      · rintro (h1 | h1)
        · exact Or.inl h1
        · exact Or.inr (List.mem_cons_of_mem a h1)
      · rintro (h1 | h1)
        · exact Or.inl h1
        · rcases List.mem_cons.mp h1 with rfl | h2
          · exact Or.inl h
          · exact Or.inr h2
    · rw [show dedupStep acc a = acc ++ [a] from if_neg h]
      simp only [List.mem_append, List.mem_cons, List.mem_singleton]
      tauto

theorem foldl_dedupStep_nodup {α : Type} [DecidableEq α] (l : List α) :
    ∀ acc : List α, acc.Nodup → (l.foldl dedupStep acc).Nodup := by
  induction l with
  | nil => intro acc h; simpa using h
  | cons a l ih =>
    intro acc h
    rw [List.foldl_cons]
    apply ih
    by_cases h2 : a ∈ acc
    · rwa [dedupStep, if_pos h2]
    · rw [dedupStep, if_neg h2]
      exact List.Nodup.append h (List.nodup_singleton a)
        (fun x hx hx2 => h2 ((List.mem_singleton.mp hx2) ▸ hx))

theorem mem_dedupFirst {α : Type} [DecidableEq α] {l : List α} {x : α} :
    x ∈ dedupFirst l ↔ x ∈ l := by
  unfold dedupFirst
  rw [foldl_dedupStep_mem]
  simp

theorem nodup_dedupFirst {α : Type} [DecidableEq α] (l : List α) :
    (dedupFirst l).Nodup :=
  foldl_dedupStep_nodup l [] List.nodup_nil

theorem latestOf_eq_none_iff {l : List DailyMetrics} {T : ℤ} :
    latestOf l T = none ↔ l = [] := by
  unfold latestOf
  cases h : l.find? (fun r => decide (r.date = T)) with
  | none =>
    cases l with
    | nil => simp [Option.orElse]
    | cons a l => simp [Option.orElse]
  | some x =>
    have := List.mem_of_find?_eq_some h
    cases l with
    | nil => simp at this
    | cons a l => simp [Option.orElse]

theorem latestOf_mem {l : List DailyMetrics} {T : ℤ} {x : DailyMetrics}
    (h : latestOf l T = some x) : x ∈ l := by
  unfold latestOf at h
  cases hf : l.find? (fun r => decide (r.date = T)) with
  | none =>
    rw [hf] at h
    simp [Option.orElse] at h
    cases l with
    | nil => simp at h
    | cons a l =>
      simp at h
      simp [h]
  | some y =>
    rw [hf] at h
    simp [Option.orElse] at h
    subst h
    exact List.mem_of_find?_eq_some hf

theorem rollingWindow_ne_nil_of {l : List DailyMetrics} {T : ℤ}
    (h : rollingWindow l T ≠ []) : l ≠ [] := by
  intro hl
  subst hl
  simp [rollingWindow] at h

/-- Full characterization of a successful per-ad-set computation. -/
theorem calcAdSet_some_spec {l : List DailyMetrics} {T : ℤ} {r : RollingCPAResult}
    (h : calculateAdSetRollingCPA l T = some r) :
    ∃ latest, latestOf l T = some latest ∧ latest ∈ l ∧
      r.adSetId = latest.adSetId ∧ r.adSetName = latest.adSetName ∧
      r.platform = latest.platform ∧ r.currentDayCPA = latest.costPerConversion ∧
      r.dataPoints = (rollingWindow l T).length ∧ rollingWindow l T ≠ [] ∧
      (((rollingWindow l T).map (·.conversions)).sum = 0 →
        r.rolling7DayAvgCPA = 0 ∧ r.changeFromRollingAvg = latest.costPerConversion ∧
        r.changePercent = 100 ∧ r.trend = .worsening) ∧
      (((rollingWindow l T).map (·.conversions)).sum ≠ 0 →
        r.rolling7DayAvgCPA =
          ((rollingWindow l T).map (·.spend)).sum / ((rollingWindow l T).map (·.conversions)).sum ∧
        r.changeFromRollingAvg = latest.costPerConversion - r.rolling7DayAvgCPA ∧
        r.changePercent =
          (if 0 < r.rolling7DayAvgCPA then r.changeFromRollingAvg / r.rolling7DayAvgCPA * 100
           else 0) ∧
        r.trend = trendOf r.changePercent) := by
  unfold calculateAdSetRollingCPA at h
  cases hl : latestOf l T with
  | none => rw [hl] at h; simp at h
  | some latest =>
    rw [hl] at h
    simp only at h
    refine ⟨latest, rfl, latestOf_mem hl, ?_⟩
    by_cases hw : rollingWindow l T = []
    · rw [if_pos hw] at h; simp at h
    · rw [if_neg hw] at h
      by_cases hc : ((rollingWindow l T).map (·.conversions)).sum = 0
      · rw [if_pos hc] at h
        obtain rfl := (Option.some_inj.mp h).symm
        refine ⟨rfl, rfl, rfl, rfl, rfl, hw, fun _ => ⟨rfl, rfl, rfl, rfl⟩, fun hc2 => absurd hc hc2⟩
      · rw [if_neg hc] at h
        obtain rfl := (Option.some_inj.mp h).symm
        exact ⟨rfl, rfl, rfl, rfl, rfl, hw, fun hc2 => absurd hc2 hc,
          fun _ => ⟨rfl, rfl, rfl, rfl⟩⟩

theorem calcAdSet_eq_none_iff {l : List DailyMetrics} {T : ℤ} :
    calculateAdSetRollingCPA l T = none ↔ l = [] ∨ rollingWindow l T = [] := by
  unfold calculateAdSetRollingCPA
  cases hl : latestOf l T with
  | none => simp [latestOf_eq_none_iff.mp hl]
  | some latest =>
    have hne : l ≠ [] := by
      intro hnil
      subst hnil
      rw [latestOf_eq_none_iff.mpr rfl] at hl
      simp at hl
    by_cases hw : rollingWindow l T = []
    · simp [hw]
    · simp only [hw, if_neg hw]
      by_cases hc : ((rollingWindow l T).map (·.conversions)).sum = 0 <;>
        simp [hc, hne, hw]

theorem insertionSort_ne_nil {α : Type} (r : α → α → Prop) [DecidableRel r]
    {l : List α} (h : l ≠ []) : l.insertionSort r ≠ [] := by
  intro hnil
  exact h ((List.perm_insertionSort r l).symm.trans (hnil ▸ List.Perm.refl _)).eq_nil

theorem perAdSet_some_adSetId {data : List DailyMetrics} {T : ℤ} {id : String}
    {r : RollingCPAResult} (h : perAdSet data T id = some r) : r.adSetId = id := by
  unfold perAdSet at h
  by_cases he : adSetDataOf data id = []
  · rw [if_pos he] at h; simp at h
  · rw [if_neg he] at h
    obtain ⟨latest, -, hmem, hid, -⟩ := calcAdSet_some_spec h
    have h1 : latest ∈ adSetDataOf data id := (List.mem_insertionSort dateDesc).mp hmem
    have h2 : decide (latest.adSetId = id) = true := (List.mem_filter.mp h1).2
    rw [hid]
    exact of_decide_eq_true h2

theorem rollingWindow_insertionSort_perm (l : List DailyMetrics) (T : ℤ) :
    List.Perm (rollingWindow (l.insertionSort dateDesc) T) (rollingWindow l T) :=
  (List.perm_insertionSort dateDesc l).filter _

theorem perAdSet_isSome_iff {data : List DailyMetrics} {T : ℤ} {id : String} :
    (perAdSet data T id).isSome = true ↔
      ∃ x ∈ data, x.adSetId = id ∧ T - 6 ≤ x.date ∧ x.date ≤ T := by
  unfold perAdSet
  by_cases he : adSetDataOf data id = []
  · rw [if_pos he]
    simp only [Option.isSome_none, Bool.false_eq_true, false_iff]
    rintro ⟨x, hx, hid, -⟩
    have : x ∈ adSetDataOf data id :=
      List.mem_filter.mpr ⟨hx, decide_eq_true_eq.mpr hid⟩
    rw [he] at this
    simp at this
  · rw [if_neg he]
    have hsort : (adSetDataOf data id).insertionSort dateDesc ≠ [] :=
      insertionSort_ne_nil dateDesc he
    rw [Option.isSome_iff_ne_none]
    constructor
    · intro hne
      have hwin : rollingWindow ((adSetDataOf data id).insertionSort dateDesc) T ≠ [] := by
        intro hnil
        exact hne (calcAdSet_eq_none_iff.mpr (Or.inr hnil))
      have hwin2 : rollingWindow (adSetDataOf data id) T ≠ [] := by
        intro hnil
        exact hwin ((rollingWindow_insertionSort_perm _ T).trans (hnil ▸ List.Perm.refl _)).eq_nil
      rcases List.exists_cons_of_ne_nil hwin2 with ⟨y, ys, hy⟩
      have hmem : y ∈ rollingWindow (adSetDataOf data id) T := hy ▸ List.mem_cons_self y ys
      have hmem2 := List.mem_filter.mp hmem
      have hmem3 := List.mem_filter.mp hmem2.1
      exact ⟨y, hmem3.1, decide_eq_true_eq.mp hmem3.2, decide_eq_true_eq.mp hmem2.2⟩
    · rintro ⟨x, hx, hid, hdates⟩ hnone
      rcases calcAdSet_eq_none_iff.mp hnone with h | h
      · exact hsort h
      · have hmem : x ∈ rollingWindow ((adSetDataOf data id).insertionSort dateDesc) T := by
          apply List.mem_filter.mpr
          refine ⟨?_, decide_eq_true_eq.mpr hdates⟩
          exact (List.mem_insertionSort dateDesc).mpr
            (List.mem_filter.mpr ⟨hx, decide_eq_true_eq.mpr hid⟩)
        rw [h] at hmem
        simp at hmem

theorem filterMap_perAdSet_map (data : List DailyMetrics) (T : ℤ) (keys : List String) :
    ((keys.filterMap (perAdSet data T)).map (·.adSetId)) =
      keys.filter (fun id =>
        data.any (fun x => decide (x.adSetId = id ∧ T - 6 ≤ x.date ∧ x.date ≤ T))) := by
  induction keys with
  | nil => rfl
  | cons id rest ih =>
    have hiff : (data.any (fun x =>
        decide (x.adSetId = id ∧ T - 6 ≤ x.date ∧ x.date ≤ T))) = true ↔
        (perAdSet data T id).isSome = true := by
      rw [List.any_eq_true, perAdSet_isSome_iff]
      simp
    rw [List.filterMap_cons, List.filter_cons]
    cases hF : perAdSet data T id with
    | none =>
      have hc : (data.any (fun x =>
          decide (x.adSetId = id ∧ T - 6 ≤ x.date ∧ x.date ≤ T))) = false := by
        rw [← Bool.not_eq_true, hiff, hF]
        simp
      rw [hc]
      simpa using ih
    | some r =>
      have hc : (data.any (fun x =>
          decide (x.adSetId = id ∧ T - 6 ≤ x.date ∧ x.date ≤ T))) = true := by
        rw [hiff, hF]
        rfl
      rw [hc]
      simp only [if_pos]
      rw [List.map_cons, ih, perAdSet_some_adSetId hF]

theorem length_mapWithIndex {α β : Type} (f : ℕ → α → β) :
    ∀ (n : ℕ) (l : List α), (mapWithIndex f n l).length = l.length := by
  intro n l
  induction l generalizing n with
  | nil => rfl
  | cons x xs ih => rw [mapWithIndex, List.length_cons, List.length_cons, ih]

theorem getElem?_mapWithIndex {α β : Type} (f : ℕ → α → β) :
    ∀ (n : ℕ) (l : List α) (i : ℕ),
      (mapWithIndex f n l)[i]? = (l[i]?).map (f (n + i)) := by
  intro n l
  induction l generalizing n with
  | nil => intro i; rfl
  | cons x xs ih =>
    intro i
    cases i with
    | zero => simp [mapWithIndex]
    | succ j =>
      rw [mapWithIndex]
      simp only [List.getElem?_cons_succ]
      rw [ih (n + 1) j]
      have harith : n + 1 + j = n + (j + 1) := by omega
      rw [harith]

theorem map_mapWithIndex {α β γ : Type} (f : ℕ → α → β) (g : β → γ) (h : α → γ)
    (hc : ∀ i x, g (f i x) = h x) :
    ∀ (n : ℕ) (l : List α), (mapWithIndex f n l).map g = l.map h := by
  intro n l
  induction l generalizing n with
  | nil => rfl
  | cons x xs ih => rw [mapWithIndex, List.map_cons, List.map_cons, hc, ih]

theorem mem_mapWithIndex {α β : Type} {f : ℕ → α → β} {b : β} :
    ∀ {n : ℕ} {l : List α}, b ∈ mapWithIndex f n l → ∃ i y, y ∈ l ∧ b = f i y := by
  intro n l
  induction l generalizing n with
  | nil => intro h; simp [mapWithIndex] at h
  | cons x xs ih =>
    intro h
    rw [mapWithIndex] at h
    rcases List.mem_cons.mp h with rfl | h2
    · exact ⟨n, x, List.mem_cons_self x xs, rfl⟩
    · obtain ⟨i, y, hy, hb⟩ := ih h2
      exact ⟨i, y, List.mem_cons_of_mem x hy, hb⟩

theorem upsertDate_keys (acc : List (ℤ × ℚ × ℚ)) (m : DailyMetrics) :
    (upsertDate acc m).map Prod.fst = dedupStep (acc.map Prod.fst) m.date := by
  induction acc with
  | nil => simp [upsertDate, dedupStep]
  | cons e rest ih =>
    by_cases h : e.1 = m.date
    · rw [upsertDate, if_pos h, List.map_cons, List.map_cons, dedupStep,
        if_pos (List.mem_cons.mpr (Or.inl h.symm))]
    · rw [upsertDate, if_neg h, List.map_cons, ih, List.map_cons]
      unfold dedupStep
      by_cases h2 : m.date ∈ rest.map Prod.fst
      · rw [if_pos h2, if_pos (List.mem_cons_of_mem _ h2)]
      · rw [if_neg h2, if_neg (by
          rw [List.mem_cons]
          rintro (h3 | h3)
          · exact h h3.symm
          · exact h2 h3)]
        rfl

theorem foldl_upsertDate_keys (l : List DailyMetrics) :
    ∀ acc : List (ℤ × ℚ × ℚ),
      (l.foldl upsertDate acc).map Prod.fst =
        (l.map (·.date)).foldl dedupStep (acc.map Prod.fst) := by
  induction l with
  | nil => intro acc; rfl
  | cons m rest ih =>
    intro acc
    rw [List.foldl_cons, ih, upsertDate_keys, List.map_cons, List.foldl_cons]

theorem groupByDate_keys (l : List DailyMetrics) :
    (groupByDate l).map Prod.fst = dedupFirst (l.map (·.date)) :=
  foldl_upsertDate_keys l []

theorem upsertDate_keySpendSum (m : DailyMetrics) (d : ℤ) :
    ∀ acc : List (ℤ × ℚ × ℚ),
      keySpendSum (upsertDate acc m) d =
        keySpendSum acc d + (if m.date = d then m.spend else 0) := by
  intro acc
  induction acc with
  | nil =>
    by_cases h : m.date = d <;> simp [upsertDate, keySpendSum, List.filter_cons, h]
  | cons e rest ih =>
    unfold keySpendSum at ih ⊢
    unfold upsertDate
    by_cases h : e.1 = m.date
    · rw [if_pos h]
      by_cases h2 : e.1 = d
      · have hmd : m.date = d := h.symm.trans h2
        simp [List.filter_cons, h2, hmd]
        ring
      · have hmd : ¬(m.date = d) := fun hc => h2 (h.trans hc)
        simp [List.filter_cons, h2, hmd]
    · rw [if_neg h]
      by_cases h2 : e.1 = d
      · simp [List.filter_cons, h2, ih]
        ring
      · simp [List.filter_cons, h2, ih]

theorem upsertDate_keyConvSum (m : DailyMetrics) (d : ℤ) :
    ∀ acc : List (ℤ × ℚ × ℚ),
      keyConvSum (upsertDate acc m) d =
        keyConvSum acc d + (if m.date = d then m.conversions else 0) := by
  intro acc
  induction acc with
  | nil =>
    by_cases h : m.date = d <;> simp [upsertDate, keyConvSum, List.filter_cons, h]
  | cons e rest ih =>
    unfold keyConvSum at ih ⊢
    unfold upsertDate
    by_cases h : e.1 = m.date
    · rw [if_pos h]
      by_cases h2 : e.1 = d
      · have hmd : m.date = d := h.symm.trans h2
        simp [List.filter_cons, h2, hmd]
        ring
      · have hmd : ¬(m.date = d) := fun hc => h2 (h.trans hc)
        simp [List.filter_cons, h2, hmd]
    · rw [if_neg h]
      by_cases h2 : e.1 = d
      · simp [List.filter_cons, h2, ih]
        ring
      · simp [List.filter_cons, h2, ih]

theorem foldl_upsertDate_keySpendSum (d : ℤ) :
    ∀ (l : List DailyMetrics) (acc : List (ℤ × ℚ × ℚ)),
      keySpendSum (l.foldl upsertDate acc) d = keySpendSum acc d + dateSpendSum l d := by
  intro l
  induction l with
  | nil =>
    intro acc
    unfold dateSpendSum
    simp
  | cons m rest ih =>
    intro acc
    rw [List.foldl_cons, ih, upsertDate_keySpendSum]
    unfold dateSpendSum
    rw [List.filter_cons]
    by_cases h : m.date = d
    · simp [h]
      ring
    · simp [h]

theorem foldl_upsertDate_keyConvSum (d : ℤ) :
    ∀ (l : List DailyMetrics) (acc : List (ℤ × ℚ × ℚ)),
      keyConvSum (l.foldl upsertDate acc) d = keyConvSum acc d + dateConvSum l d := by
  intro l
  induction l with
  | nil =>
    intro acc
    unfold dateConvSum
    simp
  | cons m rest ih =>
    intro acc
    rw [List.foldl_cons, ih, upsertDate_keyConvSum]
    unfold dateConvSum
    rw [List.filter_cons]
    by_cases h : m.date = d
    · simp [h]
      ring
    · simp [h]

theorem groupByDate_keySpendSum (l : List DailyMetrics) (d : ℤ) :
    keySpendSum (groupByDate l) d = dateSpendSum l d := by
  have h := foldl_upsertDate_keySpendSum d l []
  unfold keySpendSum at h
  simpa [groupByDate, keySpendSum] using h

theorem groupByDate_keyConvSum (l : List DailyMetrics) (d : ℤ) :
    keyConvSum (groupByDate l) d = dateConvSum l d := by
  have h := foldl_upsertDate_keyConvSum d l []
  unfold keyConvSum at h
  simpa [groupByDate, keyConvSum] using h

theorem filter_key_singleton {g : List (ℤ × ℚ × ℚ)} {e : ℤ × ℚ × ℚ}
    (hn : (g.map Prod.fst).Nodup) (he : e ∈ g) :
    g.filter (fun x => decide (x.1 = e.1)) = [e] := by
  induction g with
  | nil => simp at he
  | cons a rest ih =>
    rw [List.map_cons, List.nodup_cons] at hn
    rcases List.mem_cons.mp he with rfl | hmem
    · rw [List.filter_cons]
      have hrest : rest.filter (fun x => decide (x.1 = e.1)) = [] := by
        rw [List.filter_eq_nil_iff]
        intro x hx
        simp only [decide_eq_true_eq]
        intro hc
        exact hn.1 (hc ▸ List.mem_map_of_mem Prod.fst hx)
      simp [hrest]
    · have ha : ¬(a.1 = e.1) := by
        intro hc
        exact hn.1 (hc ▸ List.mem_map_of_mem Prod.fst hmem)
      have hdec : (decide (a.1 = e.1)) = false := decide_eq_false_iff_not.mpr ha
      rw [List.filter_cons, hdec]
      simp only [Bool.false_eq_true, if_false]
      exact ih hn.2 hmem

theorem mem_groupByDate_sums {l : List DailyMetrics} {e : ℤ × ℚ × ℚ}
    (he : e ∈ groupByDate l) :
    e.2.1 = dateSpendSum l e.1 ∧ e.2.2 = dateConvSum l e.1 := by
  have hn : ((groupByDate l).map Prod.fst).Nodup := by
    rw [groupByDate_keys]
    exact nodup_dedupFirst _
  have h1 := filter_key_singleton hn he
  constructor
  · rw [← groupByDate_keySpendSum]
    unfold keySpendSum
    rw [h1]
    simp
  · rw [← groupByDate_keyConvSum]
    unfold keyConvSum
    rw [h1]
    simp

theorem mem_sortedDailyData {l : List DailyMetrics} {p : DatedTotals}
    (hp : p ∈ sortedDailyData l) :
    p.spend = dateSpendSum l p.date ∧ p.conversions = dateConvSum l p.date ∧
      p.dailyCPA = (if 0 < p.conversions then p.spend / p.conversions else 0) := by
  unfold sortedDailyData at hp
  rw [List.mem_insertionSort] at hp
  obtain ⟨e, he, rfl⟩ := List.mem_map.mp hp
  obtain ⟨h1, h2⟩ := mem_groupByDate_sums he
  exact ⟨h1, h2, rfl⟩

theorem sortedDailyData_dates_perm (l : List DailyMetrics) :
    List.Perm ((sortedDailyData l).map (·.date)) (dedupFirst (l.map (·.date))) := by
  unfold sortedDailyData
  have hp := (List.perm_insertionSort dateAsc ((groupByDate l).map mkDatedTotals)).map
    (fun p : DatedTotals => p.date)
  rw [List.map_map] at hp
  have hcomp : ((fun p : DatedTotals => p.date) ∘ mkDatedTotals) = Prod.fst :=
    funext (fun e => rfl)
  rw [hcomp, groupByDate_keys] at hp
  exact hp

theorem sortedDailyData_dates_lt (l : List DailyMetrics) :
    ((sortedDailyData l).map (·.date)).Pairwise (· < ·) := by
  have hs : List.Sorted dateAsc (sortedDailyData l) :=
    List.sorted_insertionSort dateAsc _
  have hle : ((sortedDailyData l).map (·.date)).Pairwise (· ≤ ·) :=
    List.Pairwise.map _ (fun a b h => h) hs
  have hnd : ((sortedDailyData l).map (·.date)).Nodup :=
    (sortedDailyData_dates_perm l).nodup_iff.mpr (nodup_dedupFirst _)
  exact (hle.and hnd).imp (fun h => lt_of_le_of_ne h.1 h.2)

theorem trendOf_cases (q : ℚ) :
    (trendOf q = .stable ↔ |q| < 5) ∧ (trendOf q = .worsening ↔ 5 ≤ q) ∧
      (trendOf q = .improving ↔ q ≤ -5) := by
  unfold trendOf
  split_ifs with h1 h2
  · have h5 : q < 5 := (abs_lt.mp h1).2
    have h5' : -5 < q := (abs_lt.mp h1).1
    exact ⟨iff_of_true rfl h1, iff_of_false (by simp) (by intro h; linarith),
      iff_of_false (by simp) (by intro h; linarith)⟩
  · have h5 : 5 ≤ |q| := not_lt.mp h1
    rw [abs_of_pos h2] at h5
    exact ⟨iff_of_false (by simp) h1, iff_of_true rfl h5,
      iff_of_false (by simp) (by intro h; linarith)⟩
  · have hq : q ≤ 0 := not_lt.mp h2
    have h5 : 5 ≤ |q| := not_lt.mp h1
    rw [abs_of_nonpos hq] at h5
    exact ⟨iff_of_false (by simp) h1, iff_of_false (by simp) (by intro h; linarith),
      iff_of_true rfl (by linarith)⟩

/-! ## Claim theorems -/

/-- **C1**: for every ad set whose rolling window is non-empty and whose
summed conversions over the window equal 0, the rolling computation returns
a result with `rolling7DayAvgCPA = 0`, `changePercent = 100` and
`trend = worsening`; the spend total is never divided by the zero conversion
total. -/
theorem zero_conversion_window_result (l : List DailyMetrics) (T : ℤ)
    (hw : rollingWindow l T ≠ [])
    (hc : ((rollingWindow l T).map (·.conversions)).sum = 0) :
    ∃ r, calculateAdSetRollingCPA l T = some r ∧ r.rolling7DayAvgCPA = 0 ∧
      r.changePercent = 100 ∧ r.trend = .worsening ∧
      r.dataPoints = (rollingWindow l T).length := by
  have hl : l ≠ [] := rollingWindow_ne_nil_of hw
  cases hr : calculateAdSetRollingCPA l T with
  | none =>
    rcases calcAdSet_eq_none_iff.mp hr with h | h
    · exact absurd h hl
    · exact absurd h hw
  | some r =>
    obtain ⟨latest, -, -, -, -, -, -, hdp, -, hzero, -⟩ := calcAdSet_some_spec hr
    obtain ⟨h1, -, h3, h4⟩ := hzero hc
    exact ⟨r, rfl, h1, h3, h4, hdp⟩

/-- Witness for **C1**: a single zero-conversion record in the window. -/
theorem zero_conversion_window_result_witness :
    ∃ r, calculateAdSetRollingCPA c1data 0 = some r ∧ r.rolling7DayAvgCPA = 0 ∧
      r.changePercent = 100 ∧ r.trend = .worsening ∧
      r.dataPoints = (rollingWindow c1data 0).length :=
  zero_conversion_window_result c1data 0 (by with_unfolding_all decide)
    (by with_unfolding_all decide)

/-- **C2**: when the window's summed conversions are positive, the trend is
`stable` exactly when `|changePercent| < 5`, `worsening` exactly when
`changePercent ≥ 5`, and `improving` exactly when `changePercent ≤ -5`.
The 5% band is the fixed constant of `calculateAdSetRollingCPA`, whose
signature carries no threshold parameter. -/
theorem trend_band_classification (l : List DailyMetrics) (T : ℤ)
    (r : RollingCPAResult) (h : calculateAdSetRollingCPA l T = some r)
    (hc : 0 < ((rollingWindow l T).map (·.conversions)).sum) :
    (r.trend = .stable ↔ |r.changePercent| < 5) ∧
      (r.trend = .worsening ↔ 5 ≤ r.changePercent) ∧
      (r.trend = .improving ↔ r.changePercent ≤ -5) := by
  obtain ⟨latest, -, -, -, -, -, -, -, -, -, hpos⟩ := calcAdSet_some_spec h
  obtain ⟨-, -, -, htrend⟩ := hpos (ne_of_gt hc)
  rw [htrend]
  exact trendOf_cases r.changePercent

/-- Witness for **C2**: one record with conversions 1 and CPA equal to the
rolling average, so `changePercent = 0` and the trend is `stable`. -/
theorem trend_band_classification_witness :
    (c2result.trend = .stable ↔ |c2result.changePercent| < 5) ∧
      (c2result.trend = .worsening ↔ 5 ≤ c2result.changePercent) ∧
      (c2result.trend = .improving ↔ c2result.changePercent ≤ -5) :=
  trend_band_classification c2data 0 c2result (by with_unfolding_all rfl)
    (by with_unfolding_all decide)

/-- **C10**: when the window has positive summed conversions but zero summed
spend, the rolling average is 0, the division by the zero rolling average is
guarded (`changePercent = 0`) and the trend is `stable`, not the
infinite-degradation case. -/
theorem zero_spend_window_result (l : List DailyMetrics) (T : ℤ)
    (hw : rollingWindow l T ≠ [])
    (hc : 0 < ((rollingWindow l T).map (·.conversions)).sum)
    (hs : ((rollingWindow l T).map (·.spend)).sum = 0) :
    ∃ r, calculateAdSetRollingCPA l T = some r ∧ r.rolling7DayAvgCPA = 0 ∧
      r.changePercent = 0 ∧ r.trend = .stable := by
  have hl : l ≠ [] := rollingWindow_ne_nil_of hw
  cases hr : calculateAdSetRollingCPA l T with
  | none =>
    rcases calcAdSet_eq_none_iff.mp hr with h | h
    · exact absurd h hl
    · exact absurd h hw
  | some r =>
    obtain ⟨latest, -, -, -, -, -, -, -, -, -, hpos⟩ := calcAdSet_some_spec hr
    obtain ⟨havg, -, hcp, htr⟩ := hpos (ne_of_gt hc)
    rw [hs, zero_div] at havg
    rw [havg] at hcp
    rw [if_neg (lt_irrefl 0)] at hcp
    rw [hcp] at htr
    refine ⟨r, rfl, havg, hcp, ?_⟩
    rw [htr]
    unfold trendOf
    norm_num

/-- Witness for **C10**: one record with spend 0 and conversions 5. -/
theorem zero_spend_window_result_witness :
    ∃ r, calculateAdSetRollingCPA c10data 0 = some r ∧ r.rolling7DayAvgCPA = 0 ∧
      r.changePercent = 0 ∧ r.trend = .stable :=
  zero_spend_window_result c10data 0 (by with_unfolding_all decide)
    (by with_unfolding_all decide) (by with_unfolding_all decide)

/-- **C3**: the engine's rolling window is exactly the records with date in
`[T - 6, T]` and the returned `dataPoints` counts that window (first
conjunct).  The helper `dataValidation.calculateRollingCPA`, however,
filters with `[T - 7, T]`: at the failing input `[c3record]` (a record dated
`T - 7`) it returns `.ok 10` — the out-of-window record feeds its average —
while the `[T - 6, T]` window of the claim is empty and the engine
accordingly produces no result. -/
theorem window_dataPoints_spec :
    (∀ (l : List DailyMetrics) (T : ℤ) (r : RollingCPAResult),
        calculateAdSetRollingCPA l T = some r →
        r.dataPoints =
          (l.filter (fun x => decide (T - 6 ≤ x.date ∧ x.date ≤ T))).length) ∧
      DataValidation.calculateRollingCPA [c3record] 10 = .ok 10 ∧
      rollingWindow [c3record] 10 = [] ∧
      calculateAdSetRollingCPA [c3record] 10 = none := by
  refine ⟨?_, ?_, ?_, ?_⟩
  · intro l T r h
    obtain ⟨latest, -, -, -, -, -, -, hdp, -, -, -⟩ := calcAdSet_some_spec h
    exact hdp
  · with_unfolding_all rfl
  · with_unfolding_all rfl
  · with_unfolding_all rfl

/-- Witness for **C3**: the window/`dataPoints` conjunct instantiated at a
one-record history whose record lies in the window. -/
theorem window_dataPoints_spec_witness :
    (⟨"a", "A", "facebook", 10, 10, 0, 0, .stable, 1⟩ : RollingCPAResult).dataPoints =
      (c3data.filter (fun x => decide ((0 : ℤ) - 6 ≤ x.date ∧ x.date ≤ 0))).length :=
  window_dataPoints_spec.1 c3data 0 _ (by with_unfolding_all rfl)

/-- **C6 (amended)**: the hard-stop integrity check `validateRealData`
rejects via the round-spend heuristic exactly when *every* record's spend is
a multiple of 100 greater than 100 (`data.every` in the source); the
*more-than-half* version of the heuristic exists only in the advisory
`detectMockData`, which merely returns a pattern string. -/
theorem round_spend_heuristic (data : List DailyMetrics) :
    (roundSpendPattern data = true ↔
      ∀ r ∈ data, isMult100 r.spend = true ∧ 100 < r.spend) ∧
      (roundSpendPattern data = true → validateRealData data = some mockMsg) ∧
      ∀ (mdata : List MockCheckRecord),
        roundMsg ∈ detectMockData mdata ↔ mdata ≠ [] ∧
          mdata.length <
            (mdata.filter (fun r => isMult100 r.spend && decide (100 < r.spend))).length * 2 := by
  refine ⟨?_, ?_, ?_⟩
  · unfold roundSpendPattern
    rw [List.all_eq_true]
    constructor
    · intro h r hr
      have := h r hr
      rw [Bool.and_eq_true, decide_eq_true_eq] at this
      exact this
    · intro h r hr
      rw [Bool.and_eq_true, decide_eq_true_eq]
      exact h r hr
  · intro h
    simp [validateRealData, h]
  · intro mdata
    by_cases hm : mdata = []
    · simp [detectMockData, hm]
    · unfold detectMockData
      rw [if_neg hm]
      have h2 : roundMsg ≠ testIdMsg := by decide
      have h3 : roundMsg ≠ rateMsg := by decide
      have h4 : roundMsg ≠ identMsg := by decide
      simp only [List.mem_append, List.mem_ite_nil_right, List.mem_singleton,
        decide_eq_true_eq]
      simp [h2, h3, h4, hm]

/-- Counterexample for **C6** as stated: in `c6data` more than half of the
records (2 of 3) have a round spend, yet `validateRealData` does not reject
and the batch rolling computation proceeds to a successful result. -/
theorem round_spend_majority_not_rejected :
    c6data.length <
        (c6data.filter (fun r => isMult100 r.spend && decide (100 < r.spend))).length * 2 ∧
      validateRealData c6data = none ∧
      (calculateRollingCPA c6data 10).toOption.isSome = true := by
  with_unfolding_all decide

/-- Witness for **C6 (amended)**: a list whose every spend is a round
multiple of 100 above 100 is rejected with the mock-data error. -/
theorem round_spend_heuristic_witness :
    validateRealData [⟨10, "facebook", "alpha", "Alpha", 200, 2, 100⟩] = some mockMsg :=
  (round_spend_heuristic _).2.1 (by with_unfolding_all decide)

/-- **C7 (amended)**: the integrity check rejects every record set containing
a record whose ad-set id — or, when the id is the empty string, its ad-set
name — begins case-insensitively with `test_`, `mock_`, `fake_` or `demo_`;
the batch rolling computation then fails before producing any result.  (The
source tests `record.adSetId || record.adSetName`, so the name is consulted
only for an empty id.) -/
theorem test_prefix_rejection (data : List DailyMetrics) (T : ℤ)
    (r : DailyMetrics) (hr : r ∈ data)
    (hp : hasTestPrefix (jsOr r.adSetId r.adSetName) = true) :
    validateRealData data = some mockMsg ∧
      calculateRollingCPA data T = .error mockMsg := by
  have hpat : testPrefixPattern data = true := by
    unfold testPrefixPattern
    rw [List.any_eq_true]
    exact ⟨r, hr, hp⟩
  have hval : validateRealData data = some mockMsg := by
    unfold validateRealData
    rw [hpat]
    simp
  refine ⟨hval, ?_⟩
  unfold calculateRollingCPA
  rw [if_neg (List.ne_nil_of_mem hr), hval]

/-- Witness for **C7 (amended)**: a record whose ad-set id is `test_1`. -/
theorem test_prefix_rejection_witness :
    validateRealData [c7record2] = some mockMsg ∧
      calculateRollingCPA [c7record2] 10 = .error mockMsg :=
  test_prefix_rejection [c7record2] 10 c7record2 (by with_unfolding_all decide)
    (by with_unfolding_all decide)

/-- Counterexample for **C7** as stated: `c7record` has ad-set name
`test_camp` (matching the test prefix) but non-empty ad-set id `a1`, and the
integrity check does *not* reject — the batch computation succeeds. -/
theorem test_prefix_name_not_rejected :
    hasTestPrefix c7record.adSetName = true ∧ c7record.adSetId ≠ "" ∧
      validateRealData [c7record] = none ∧
      (calculateRollingCPA [c7record] 10).toOption.isSome = true := by
  with_unfolding_all decide

/-- **C8**: with the default thresholds, a result is in `critical` exactly
when `changePercent > 25`, in `warning` exactly when
`15 < changePercent ≤ 25`, in `improvements` exactly when
`changePercent < -10`; the buckets are pairwise disjoint and a result with
`changePercent ∈ [-10, 15]` is in none of them. -/
theorem classify_changes_buckets (results : List RollingCPAResult)
    (r : RollingCPAResult) (hr : r ∈ results) :
    (r ∈ (getSignificantCPAChanges results defaultCPAThresholds).critical ↔
        25 < r.changePercent) ∧
      (r ∈ (getSignificantCPAChanges results defaultCPAThresholds).warning ↔
        15 < r.changePercent ∧ r.changePercent ≤ 25) ∧
      (r ∈ (getSignificantCPAChanges results defaultCPAThresholds).improvements ↔
        r.changePercent < -10) ∧
      ¬(r ∈ (getSignificantCPAChanges results defaultCPAThresholds).critical ∧
        r ∈ (getSignificantCPAChanges results defaultCPAThresholds).warning) ∧
      ¬(r ∈ (getSignificantCPAChanges results defaultCPAThresholds).critical ∧
        r ∈ (getSignificantCPAChanges results defaultCPAThresholds).improvements) ∧
      ¬(r ∈ (getSignificantCPAChanges results defaultCPAThresholds).warning ∧
        r ∈ (getSignificantCPAChanges results defaultCPAThresholds).improvements) ∧
      (-10 ≤ r.changePercent → r.changePercent ≤ 15 →
        r ∉ (getSignificantCPAChanges results defaultCPAThresholds).critical ∧
        r ∉ (getSignificantCPAChanges results defaultCPAThresholds).warning ∧
        r ∉ (getSignificantCPAChanges results defaultCPAThresholds).improvements) := by
  have hc : r ∈ (getSignificantCPAChanges results defaultCPAThresholds).critical ↔
      25 < r.changePercent := by
    simp [getSignificantCPAChanges, List.mem_filter, hr, defaultCPAThresholds]
  have hw : r ∈ (getSignificantCPAChanges results defaultCPAThresholds).warning ↔
      15 < r.changePercent ∧ r.changePercent ≤ 25 := by
    simp [getSignificantCPAChanges, List.mem_filter, hr, defaultCPAThresholds]
  have hi : r ∈ (getSignificantCPAChanges results defaultCPAThresholds).improvements ↔
      r.changePercent < -10 := by
    simp [getSignificantCPAChanges, List.mem_filter, hr, defaultCPAThresholds]
  refine ⟨hc, hw, hi, ?_, ?_, ?_, ?_⟩
  · rintro ⟨h1, h2⟩
    rw [hc] at h1; rw [hw] at h2
    linarith [h2.2]
  · rintro ⟨h1, h2⟩
    rw [hc] at h1; rw [hi] at h2
    linarith
  · rintro ⟨h1, h2⟩
    rw [hw] at h1; rw [hi] at h2
    linarith [h1.1]
  · intro hlo hhi
    refine ⟨?_, ?_, ?_⟩
    · rw [hc]; intro h; linarith
    · rw [hw]; rintro ⟨h, -⟩; linarith
    · rw [hi]; intro h; linarith

/-- Witness for **C8**: the E2E scenario — `changePercent` 30 is critical
only, -15 is improvement only, 2 is in no bucket. -/
theorem classify_changes_buckets_witness :
    (c8critical ∈ (getSignificantCPAChanges [c8critical, c8improving, c8normal]
        defaultCPAThresholds).critical ↔ 25 < c8critical.changePercent) ∧
      (c8critical ∈ (getSignificantCPAChanges [c8critical, c8improving, c8normal]
        defaultCPAThresholds).warning ↔
        15 < c8critical.changePercent ∧ c8critical.changePercent ≤ 25) ∧
      (c8critical ∈ (getSignificantCPAChanges [c8critical, c8improving, c8normal]
        defaultCPAThresholds).improvements ↔ c8critical.changePercent < -10) ∧
      ¬(c8critical ∈ (getSignificantCPAChanges [c8critical, c8improving, c8normal]
          defaultCPAThresholds).critical ∧
        c8critical ∈ (getSignificantCPAChanges [c8critical, c8improving, c8normal]
          defaultCPAThresholds).warning) ∧
      ¬(c8critical ∈ (getSignificantCPAChanges [c8critical, c8improving, c8normal]
          defaultCPAThresholds).critical ∧
        c8critical ∈ (getSignificantCPAChanges [c8critical, c8improving, c8normal]
          defaultCPAThresholds).improvements) ∧
      ¬(c8critical ∈ (getSignificantCPAChanges [c8critical, c8improving, c8normal]
          defaultCPAThresholds).warning ∧
        c8critical ∈ (getSignificantCPAChanges [c8critical, c8improving, c8normal]
          defaultCPAThresholds).improvements) ∧
      (-10 ≤ c8critical.changePercent → c8critical.changePercent ≤ 15 →
        c8critical ∉ (getSignificantCPAChanges [c8critical, c8improving, c8normal]
          defaultCPAThresholds).critical ∧
        c8critical ∉ (getSignificantCPAChanges [c8critical, c8improving, c8normal]
          defaultCPAThresholds).warning ∧
        c8critical ∉ (getSignificantCPAChanges [c8critical, c8improving, c8normal]
          defaultCPAThresholds).improvements) :=
  classify_changes_buckets [c8critical, c8improving, c8normal] c8critical
    (by with_unfolding_all decide)

/-- **C5**: every record the normalizer accepts stores the *derived* cost
per conversion — `spend / conversions` whenever `conversions > 0` —
regardless of any source-supplied cost-per-result value; blanking the
source-supplied cost-per-result columns changes nothing about the stored
records (a mismatch can only add a warning string, never alter or drop the
row). -/
theorem derived_cpa_not_trusted (pf : String → Option ℚ) (nd : String → ℤ)
    (y : ℤ) (rows : List FBRow) :
    (∀ m ∈ (processFacebookCSVData pf nd y rows).data,
        0 < m.conversions → m.costPerConversion = m.spend / m.conversions) ∧
      (processFacebookCSVData pf nd y (rows.map eraseCostPerResult)).data =
        (processFacebookCSVData pf nd y rows).data := by
  constructor
  · intro m hm hpos
    rw [processFacebookCSVData_data] at hm
    obtain ⟨i, row, hrow⟩ := mem_mapWithIndex_snd 0 rows m hm
    rw [rowStep_snd_cpc hrow]
    rw [if_pos hpos]
  · rw [processFacebookCSVData_data, processFacebookCSVData_data,
      mapWithIndex_snd_erase]

set_option maxRecDepth 4000 in
/-- Witness for **C5**: the concrete row `c5row` parses to `c5metric`, whose
stored cost per conversion is `500 / 10 = 50`. -/
theorem derived_cpa_not_trusted_witness :
    c5metric.costPerConversion = c5metric.spend / c5metric.conversions :=
  (derived_cpa_not_trusted c5pf c5nd 99 [c5row]).1 c5metric
    (by with_unfolding_all decide) (by with_unfolding_all decide)

/-- **C4 (amended)**: a successful batch run returns exactly one result per
distinct ad-set identifier that produced a non-empty window (the returned
identifiers are a duplicate-free permutation of the distinct input
identifiers having a record in the window), and the list is sorted
*non-increasing* — descending with ties allowed — by `currentDayCPA`. -/
theorem batch_one_per_adset_sorted (data : List DailyMetrics) (T : ℤ)
    (results : List RollingCPAResult)
    (h : calculateRollingCPA data T = .ok results) :
    List.Sorted cpaDesc results ∧
      List.Perm (results.map (·.adSetId))
        ((dedupFirst (data.map (·.adSetId))).filter
          (fun id => data.any (fun x =>
            decide (x.adSetId = id ∧ T - 6 ≤ x.date ∧ x.date ≤ T)))) ∧
      (results.map (·.adSetId)).Nodup := by
  unfold calculateRollingCPA at h
  by_cases hne : data = []
  · rw [if_pos hne] at h
    simp at h
  · rw [if_neg hne] at h
    cases hv : validateRealData data with
    | some msg => rw [hv] at h; simp at h
    | none =>
      rw [hv] at h
      simp only at h
      have hres : results =
          ((dedupFirst (data.map (·.adSetId))).filterMap (perAdSet data T)).insertionSort
            cpaDesc := by
        injection h with h'
        exact h'.symm
      subst hres
      refine ⟨List.sorted_insertionSort cpaDesc _, ?_, ?_⟩
      · have hperm := (List.perm_insertionSort cpaDesc
          ((dedupFirst (data.map (·.adSetId))).filterMap (perAdSet data T))).map
          (·.adSetId)
        rw [filterMap_perAdSet_map] at hperm
        exact hperm
      · have hnodup : ((dedupFirst (data.map (·.adSetId))).filter
            (fun id => data.any (fun x =>
              decide (x.adSetId = id ∧ T - 6 ≤ x.date ∧ x.date ≤ T)))).Nodup :=
          (nodup_dedupFirst _).filter _
        have hperm := (List.perm_insertionSort cpaDesc
          ((dedupFirst (data.map (·.adSetId))).filterMap (perAdSet data T))).map
          (·.adSetId)
        rw [filterMap_perAdSet_map] at hperm
        exact hperm.nodup_iff.mpr hnodup

/-- Witness for **C4 (amended)**: the three-ad-set batch `c6data`. -/
theorem batch_one_per_adset_sorted_witness :
    List.Sorted cpaDesc c4results ∧
      List.Perm (c4results.map (·.adSetId))
        ((dedupFirst (c6data.map (·.adSetId))).filter
          (fun id => c6data.any (fun x =>
            decide (x.adSetId = id ∧ (10 : ℤ) - 6 ≤ x.date ∧ x.date ≤ 10)))) ∧
      (c4results.map (·.adSetId)).Nodup :=
  batch_one_per_adset_sorted c6data 10 c4results (by with_unfolding_all rfl)

/-- Counterexample for **C4** as stated: `alpha` and `beta` in `c6data` tie
at `currentDayCPA = 100`, so the returned order `[100, 100, 50]` is not
*strictly* descending. -/
theorem batch_sort_not_strict :
    calculateRollingCPA c6data 10 = .ok c4results ∧
      c4results.map (·.currentDayCPA) = [100, 100, 50] ∧
      ¬ List.Pairwise (fun a b : ℚ => b < a) [(100 : ℚ), 100, 50] := by
  refine ⟨by with_unfolding_all rfl, by with_unfolding_all rfl, ?_⟩
  intro hp
  have := List.rel_of_pairwise_cons hp (List.mem_cons_self 100 [50])
  exact lt_irrefl 100 this

/-- **C9**: the chart series builder groups the input records by date
(summing spend and conversions per date — `dateSpendSum` / `dateConvSum`),
emits the distinct dates sorted strictly ascending, computes each point's
`dailyCPA` from its own sums, and computes the point at index `i`'s rolling
average over the index window `[max(0, i-6), i]` of the series itself
(`drop (i-6)` then `take (i+1-(i-6))`, with truncated subtraction): window
spend sum over window conversion sum, guarded to 0 on a non-positive
conversion total. -/
theorem chart_series_spec (l : List DailyMetrics) :
    ((convertToCPAChartData l).map (·.date)).Pairwise (· < ·) ∧
      List.Perm ((convertToCPAChartData l).map (·.date)) (dedupFirst (l.map (·.date))) ∧
      (∀ p ∈ convertToCPAChartData l,
        p.spend = dateSpendSum l p.date ∧ p.conversions = dateConvSum l p.date ∧
          p.dailyCPA = (if 0 < p.conversions then p.spend / p.conversions else 0)) ∧
      (∀ i : ℕ, i < (convertToCPAChartData l).length →
        ((convertToCPAChartData l)[i]?).map (·.rolling7DayAvg) =
          some (if 0 <
              ((((convertToCPAChartData l).drop (i - 6)).take (i + 1 - (i - 6))).map
                (·.conversions)).sum then
            ((((convertToCPAChartData l).drop (i - 6)).take (i + 1 - (i - 6))).map
              (·.spend)).sum /
              ((((convertToCPAChartData l).drop (i - 6)).take (i + 1 - (i - 6))).map
                (·.conversions)).sum
          else 0)) := by
  have hout : convertToCPAChartData l =
      mapWithIndex (mkCPAData (sortedDailyData l)) 0 (sortedDailyData l) := rfl
  have hdate : (convertToCPAChartData l).map (·.date) =
      (sortedDailyData l).map (·.date) := by
    rw [hout]
    exact map_mapWithIndex (mkCPAData (sortedDailyData l)) (fun p => p.date)
      (fun y => y.date) (fun i x => rfl) 0 (sortedDailyData l)
  have hspend : (convertToCPAChartData l).map (·.spend) =
      (sortedDailyData l).map (·.spend) := by
    rw [hout]
    exact map_mapWithIndex (mkCPAData (sortedDailyData l)) (fun p => p.spend)
      (fun y => y.spend) (fun i x => rfl) 0 (sortedDailyData l)
  have hconv : (convertToCPAChartData l).map (·.conversions) =
      (sortedDailyData l).map (·.conversions) := by
    rw [hout]
    exact map_mapWithIndex (mkCPAData (sortedDailyData l)) (fun p => p.conversions)
      (fun y => y.conversions) (fun i x => rfl) 0 (sortedDailyData l)
  refine ⟨?_, ?_, ?_, ?_⟩
  · rw [hdate]
    exact sortedDailyData_dates_lt l
  · rw [hdate]
    exact sortedDailyData_dates_perm l
  · intro p hp
    rw [hout] at hp
    obtain ⟨i, y, hy, rfl⟩ := mem_mapWithIndex hp
    obtain ⟨h1, h2, h3⟩ := mem_sortedDailyData hy
    exact ⟨h1, h2, h3⟩
  · intro i hi
    have hlen : i < (sortedDailyData l).length := by
      rw [hout, length_mapWithIndex] at hi
      exact hi
    have hwspend : (((convertToCPAChartData l).drop (i - 6)).take (i + 1 - (i - 6))).map
        (·.spend) =
        (((sortedDailyData l).drop (i - 6)).take (i + 1 - (i - 6))).map (·.spend) := by
      rw [List.map_take, List.map_drop, hspend, ← List.map_drop, ← List.map_take]
    have hwconv : (((convertToCPAChartData l).drop (i - 6)).take (i + 1 - (i - 6))).map
        (·.conversions) =
        (((sortedDailyData l).drop (i - 6)).take (i + 1 - (i - 6))).map (·.conversions) := by
      rw [List.map_take, List.map_drop, hconv, ← List.map_drop, ← List.map_take]
    rw [hwspend, hwconv, hout, getElem?_mapWithIndex, List.getElem?_eq_getElem hlen]
    show some (rollingAt (sortedDailyData l) (0 + i)) = _
    rw [Nat.zero_add]
    rfl

/-- Witness for **C9**: the two-point series of `c9data`, at index 1 — the
window is both points, so the rolling average is `1100 / 22 = 50`. -/
theorem chart_series_spec_witness :
    ((convertToCPAChartData c9data)[1]?).map (·.rolling7DayAvg) =
      some (if 0 <
          ((((convertToCPAChartData c9data).drop (1 - 6)).take (1 + 1 - (1 - 6))).map
            (·.conversions)).sum then
        ((((convertToCPAChartData c9data).drop (1 - 6)).take (1 + 1 - (1 - 6))).map
          (·.spend)).sum /
          ((((convertToCPAChartData c9data).drop (1 - 6)).take (1 + 1 - (1 - 6))).map
            (·.conversions)).sum
      else 0) :=
  (chart_series_spec c9data).2.2.2 1 (by with_unfolding_all decide)

end MarketingDash
